import Mathlib

/-!
Verification of the client handle in `src/client/mod.rs` of the rumqtt
repository.  The handle (`MqttClient`) turns synchronous calls
(publish, subscribe, unsubscribe, pause, resume, disconnect) into
messages placed on two bounded channels towards the connection engine.

The Rust code is shallowly embedded: the message sum types and the
structures from the `mqtt311` crate are translated field by field, the
two outbound channels are modelled as FIFO queues with a closed flag
(a send on a channel whose receiver was dropped fails), and every public
operation becomes a pure function from client and channel state to a
result together with the new client and channel state.
-/

deriving instance DecidableEq for Except

set_option maxRecDepth 8000

namespace Rumqtt

/-- MQTT quality-of-service level, as in the `mqtt311` crate. -/
inductive QoS where
  | AtMostOnce
  | AtLeastOnce
  | ExactlyOnce
deriving Repr, DecidableEq

/-- Packet identifier newtype from the `mqtt311` crate (a `u16`). -/
structure PacketIdentifier where
  val : Nat
deriving Repr, DecidableEq

/-- `PacketIdentifier::zero()` from `mqtt311`. -/
def PacketIdentifier.zero : PacketIdentifier := ⟨0⟩

/-- `mqtt311::Publish`: the Rust struct has fields `dup`, `qos`,
`retain`, `topic_name`, `pkid : Option<PacketIdentifier>` and
`payload : Arc<Vec<u8>>` (modelled as a list of bytes). -/
structure Publish where
  dup : Bool
  qos : QoS
  retain : Bool
  topic_name : String
  pkid : Option PacketIdentifier
  payload : List Nat
deriving Repr, DecidableEq

/-- `mqtt311::SubscribeTopic`, one (topic path, qos) pair. -/
structure SubscribeTopic where
  topic_path : String
  qos : QoS
deriving Repr, DecidableEq

/-- `mqtt311::Subscribe`: a packet identifier and a list of topics. -/
structure Subscribe where
  pkid : PacketIdentifier
  topics : List SubscribeTopic
deriving Repr, DecidableEq

/-- `mqtt311::Unsubscribe`: a packet identifier and a list of topic
strings. -/
structure Unsubscribe where
  pkid : PacketIdentifier
  topics : List String
deriving Repr, DecidableEq

/-- Modelled from the spec: `MqttOptions` lives in a file not present
under `src/`; the only part the handle consumes is the
`max_packet_size()` accessor, so the options are modelled as carrying
that limit. -/
structure MqttOptions where
  max_packet_size : Nat
deriving Repr, DecidableEq

/-- `Request` sum type from `src/client/mod.rs` lines 26-38: requests
to the network event loop. -/
inductive Request where
  | Publish (p : Publish)
  | Subscribe (s : Subscribe)
  | Unsubscribe (u : Unsubscribe)
  | PubAck (p : PacketIdentifier)
  | PubRec (p : PacketIdentifier)
  | PubRel (p : PacketIdentifier)
  | PubComp (p : PacketIdentifier)
  | Ping
  | Reconnect (o : MqttOptions)
  | Disconnect
  | None
deriving Repr, DecidableEq

/-- `Command` sum type from `src/client/mod.rs` lines 41-44. -/
inductive Command where
  | Pause
  | Resume
deriving Repr, DecidableEq

/-- Error type returned by the handle's operations.  The variant
`PacketSizeLimitExceeded` is named in `src/client/mod.rs` line 88.
`Communication` is modelled from the spec: `src/error.rs` is not under
`src/`; the spec's error taxonomy names a communication error for a
send whose receiving side has been torn down. -/
inductive ClientError where
  | PacketSizeLimitExceeded
  | Communication
deriving Repr, DecidableEq

/-- A bounded mpsc channel as the handle observes it: the FIFO queue of
messages the sender has enqueued so far, and whether the receiving side
has been dropped.  `futures::sync::mpsc`: `send(..).wait()` appends to
the queue (blocking when full) and fails exactly when the receiver is
gone. -/
structure Channel (α : Type) where
  queue : List α
  closed : Bool
deriving Repr, DecidableEq

/-- A blocking send: fails iff the channel is closed, otherwise appends
the message at the tail of the FIFO queue. -/
def Channel.send {α : Type} (c : Channel α) (x : α) : Option (Channel α) :=
  if c.closed then none else some { c with queue := c.queue ++ [x] }

/-- `MqttClient` from `src/client/mod.rs` lines 52-57: the channel
sender endpoints are the shared channels of `ClientState`; the handle
itself holds only the immutable size limit. -/
structure MqttClient where
  max_packet_size : Nat
deriving Repr, DecidableEq

/-- The state of the two caller-to-engine channels the handle's sender
endpoints refer to. -/
structure ClientState where
  request_ch : Channel Request
  command_ch : Channel Command
deriving Repr, DecidableEq

/-- Result of one operation: the caller-visible outcome, the handle
after the `&mut self` call, and the new channel state. -/
structure OpResult where
  result : Except ClientError Unit
  client : MqttClient
  state : ClientState
deriving Repr, DecidableEq

/-- `MqttClient::start` (lines 60-75): reads `max_packet_size` from the
options and assembles the handle; the engine bootstrap
(`connection::Connection::run`) is the external collaborator producing
the channel endpoints, so the channels start empty and open here. -/
def MqttClient.start (opts : MqttOptions) : MqttClient × ClientState :=
  ({ max_packet_size := opts.max_packet_size },
   { request_ch := { queue := [], closed := false },
     command_ch := { queue := [], closed := false } })

/-- `MqttClient::publish` (lines 81-103): size check against
`max_packet_size`, then build the `Publish` struct literally as the
source does and send it on the request channel. -/
def MqttClient.publish (c : MqttClient) (st : ClientState)
    (topic : String) (qos : QoS) (payload : List Nat) : OpResult :=
  if payload.length > c.max_packet_size then
    { result := Except.error ClientError.PacketSizeLimitExceeded, client := c, state := st }
  else
    let publish : Publish :=
      { dup := false
        qos := qos
        retain := false
        topic_name := topic
        pkid := none
        payload := payload }
    match st.request_ch.send (Request.Publish publish) with
    | some ch => { result := Except.ok (), client := c, state := { st with request_ch := ch } }
    | none => { result := Except.error ClientError.Communication, client := c, state := st }

/-- `MqttClient::subscribe` (lines 105-121): one `SubscribeTopic` from
the arguments, pkid `PacketIdentifier::zero()`, sent on the request
channel. -/
def MqttClient.subscribe (c : MqttClient) (st : ClientState)
    (topic : String) (qos : QoS) : OpResult :=
  let t : SubscribeTopic := { topic_path := topic, qos := qos }
  let subscribe : Subscribe := { pkid := PacketIdentifier.zero, topics := [t] }
  match st.request_ch.send (Request.Subscribe subscribe) with
  | some ch => { result := Except.ok (), client := c, state := { st with request_ch := ch } }
  | none => { result := Except.error ClientError.Communication, client := c, state := st }

/-- `MqttClient::unsubscribe` (lines 123-135): pkid
`PacketIdentifier::zero()`, one topic string, sent on the request
channel. -/
def MqttClient.unsubscribe (c : MqttClient) (st : ClientState)
    (topic : String) : OpResult :=
  let unsubscribe : Unsubscribe := { pkid := PacketIdentifier.zero, topics := [topic] }
  match st.request_ch.send (Request.Unsubscribe unsubscribe) with
  | some ch => { result := Except.ok (), client := c, state := { st with request_ch := ch } }
  | none => { result := Except.error ClientError.Communication, client := c, state := st }

/-- `MqttClient::pause` (lines 137-141): sends `Command::Pause` on the
command channel. -/
def MqttClient.pause (c : MqttClient) (st : ClientState) : OpResult :=
  match st.command_ch.send Command.Pause with
  | some ch => { result := Except.ok (), client := c, state := { st with command_ch := ch } }
  | none => { result := Except.error ClientError.Communication, client := c, state := st }

/-- `MqttClient::resume` (lines 143-147): sends `Command::Resume` on
the command channel. -/
def MqttClient.resume (c : MqttClient) (st : ClientState) : OpResult :=
  match st.command_ch.send Command.Resume with
  | some ch => { result := Except.ok (), client := c, state := { st with command_ch := ch } }
  | none => { result := Except.error ClientError.Communication, client := c, state := st }

/-- `MqttClient::disconnect` (lines 149-153): sends
`Request::Disconnect` on the request channel. -/
def MqttClient.disconnect (c : MqttClient) (st : ClientState) : OpResult :=
  match st.request_ch.send Request.Disconnect with
  | some ch => { result := Except.ok (), client := c, state := { st with request_ch := ch } }
  | none => { result := Except.error ClientError.Communication, client := c, state := st }

/-- One public operation issued on the handle, with its arguments. -/
inductive Op where
  | publish (topic : String) (qos : QoS) (payload : List Nat)
  | subscribe (topic : String) (qos : QoS)
  | unsubscribe (topic : String)
  | pause
  | resume
  | disconnect
deriving Repr, DecidableEq

/-- Dispatch one operation to the corresponding handle method. -/
def runOp (c : MqttClient) (st : ClientState) : Op → OpResult
  | Op.publish topic qos payload => c.publish st topic qos payload
  | Op.subscribe topic qos => c.subscribe st topic qos
  | Op.unsubscribe topic => c.unsubscribe st topic
  | Op.pause => c.pause st
  | Op.resume => c.resume st
  | Op.disconnect => c.disconnect st

/-- Run a sequence of operations issued on one handle clone, threading
the client and channel state (results of individual calls are returned
to the caller and do not alter the sequencing). -/
def runOps (c : MqttClient) (st : ClientState) : List Op → MqttClient × ClientState
  | [] => (c, st)
  | op :: ops =>
      let r := runOp c st op
      runOps r.client r.state ops

/-- The Request messages one operation emits on the Request channel
when its send succeeds: the exact values built by the source methods. -/
def opRequests (c : MqttClient) : Op → List Request
  | Op.publish topic qos payload =>
      if payload.length > c.max_packet_size then []
      else [Request.Publish
        { dup := false, qos := qos, retain := false, topic_name := topic,
          pkid := none, payload := payload }]
  | Op.subscribe topic qos =>
      [Request.Subscribe
        { pkid := PacketIdentifier.zero, topics := [{ topic_path := topic, qos := qos }] }]
  | Op.unsubscribe topic =>
      [Request.Unsubscribe { pkid := PacketIdentifier.zero, topics := [topic] }]
  | Op.pause => []
  | Op.resume => []
  | Op.disconnect => [Request.Disconnect]

/-- The Command messages one operation emits on the Command channel
when its send succeeds. -/
def opCommands : Op → List Command
  | Op.pause => [Command.Pause]
  | Op.resume => [Command.Resume]
  | _ => []

/-- True iff a Request carries no handle-assigned packet identifier:
a Publish with the `None` option, a Subscribe or Unsubscribe with
`PacketIdentifier::zero()`, and every identifier-free variant. -/
def requestPkidUnassigned : Request → Bool
  | Request.Publish p => p.pkid = none
  | Request.Subscribe s => s.pkid = PacketIdentifier.zero
  | Request.Unsubscribe u => u.pkid = PacketIdentifier.zero
  | Request.PubAck _ => true
  | Request.PubRec _ => true
  | Request.PubRel _ => true
  | Request.PubComp _ => true
  | Request.Ping => true
  | Request.Reconnect _ => true
  | Request.Disconnect => true
  | Request.None => true

/-- Fresh session state: both outbound channels empty and open. -/
def st0 : ClientState :=
  { request_ch := { queue := [], closed := false },
    command_ch := { queue := [], closed := false } }

/-! ## Helper lemmas shared by the claims -/

/-- No operation writes to the handle: every branch of every method
returns `self` unchanged. -/
theorem runOp_client_eq (c : MqttClient) (st : ClientState) (op : Op) :
    (runOp c st op).client = c := by
  cases op <;>
    simp only [runOp, MqttClient.publish, MqttClient.subscribe, MqttClient.unsubscribe,
      MqttClient.pause, MqttClient.resume, MqttClient.disconnect, Channel.send] <;>
    split <;> (try rfl) <;> split <;> rfl

/-- When both channels are open, one operation appends exactly its
emitted messages to each channel queue and leaves both channels open. -/
theorem runOp_queues (c : MqttClient) (st : ClientState) (op : Op)
    (hreq : st.request_ch.closed = false) (hcmd : st.command_ch.closed = false) :
    (runOp c st op).state.request_ch.queue = st.request_ch.queue ++ opRequests c op ∧
    (runOp c st op).state.command_ch.queue = st.command_ch.queue ++ opCommands op ∧
    (runOp c st op).state.request_ch.closed = false ∧
    (runOp c st op).state.command_ch.closed = false := by
  cases op <;>
    simp only [runOp, MqttClient.publish, MqttClient.subscribe, MqttClient.unsubscribe,
      MqttClient.pause, MqttClient.resume, MqttClient.disconnect, Channel.send,
      opRequests, opCommands, hreq, hcmd] <;>
    simp_all [hreq, hcmd] <;> split <;> simp_all

/-! ## Claims -/

/-- C1: for every topic, qos, and payload whose length is at most the
handle's `max_packet_size` (the boundary case included), `publish`
succeeds and enqueues exactly one Publish Request on the Request
channel with `dup = false`, `retain = false`, the unassigned packet-id
sentinel, and payload equal to the input bytes; the Command channel is
untouched. -/
theorem C1_publish_within_limit (c : MqttClient) (st : ClientState)
    (topic : String) (qos : QoS) (payload : List Nat)
    (hsize : payload.length ≤ c.max_packet_size)
    (hopen : st.request_ch.closed = false) :
    (c.publish st topic qos payload).result = Except.ok () ∧
    (c.publish st topic qos payload).state.request_ch.queue =
      st.request_ch.queue ++
        [Request.Publish
          { dup := false, qos := qos, retain := false, topic_name := topic,
            pkid := none, payload := payload }] ∧
    (c.publish st topic qos payload).state.command_ch = st.command_ch := by
  simp [MqttClient.publish, Channel.send, hopen, Nat.not_lt.mpr hsize]

/-- Witness for C1 at the spec's concrete scenario: limit 1024, a
1024-byte payload on topic a/b at QoS AtLeastOnce. -/
theorem C1_publish_within_limit_witness :
    (List.replicate 1024 0).length ≤ (MqttClient.mk 1024).max_packet_size ∧
    st0.request_ch.closed = false ∧
    ((MqttClient.mk 1024).publish st0 "a/b" QoS.AtLeastOnce
        (List.replicate 1024 0)).result = Except.ok () ∧
    ((MqttClient.mk 1024).publish st0 "a/b" QoS.AtLeastOnce
        (List.replicate 1024 0)).state.request_ch.queue =
      st0.request_ch.queue ++
        [Request.Publish
          { dup := false, qos := QoS.AtLeastOnce, retain := false, topic_name := "a/b",
            pkid := none, payload := List.replicate 1024 0 }] ∧
    ((MqttClient.mk 1024).publish st0 "a/b" QoS.AtLeastOnce
        (List.replicate 1024 0)).state.command_ch = st0.command_ch := by
  refine ⟨by simp, rfl, ?_⟩
  exact C1_publish_within_limit (MqttClient.mk 1024) st0 "a/b" QoS.AtLeastOnce
    (List.replicate 1024 0) (by simp) rfl

/-- C2: for every limit and every payload strictly longer than the
limit, `publish` returns the size-limit error and leaves the whole
channel state unchanged: no Request is enqueued. -/
theorem C2_publish_over_limit (c : MqttClient) (st : ClientState)
    (topic : String) (qos : QoS) (payload : List Nat)
    (hsize : payload.length > c.max_packet_size) :
    (c.publish st topic qos payload).result =
      Except.error ClientError.PacketSizeLimitExceeded ∧
    (c.publish st topic qos payload).state = st := by
  simp [MqttClient.publish, hsize]

/-- Witness for C2 at the spec's concrete scenario: limit 1024 and a
1025-byte payload. -/
theorem C2_publish_over_limit_witness :
    (List.replicate 1025 0).length > (MqttClient.mk 1024).max_packet_size ∧
    ((MqttClient.mk 1024).publish st0 "a/b" QoS.AtLeastOnce
        (List.replicate 1025 0)).result =
      Except.error ClientError.PacketSizeLimitExceeded ∧
    ((MqttClient.mk 1024).publish st0 "a/b" QoS.AtLeastOnce
        (List.replicate 1025 0)).state = st0 := by
  refine ⟨by simp, ?_⟩
  exact C2_publish_over_limit (MqttClient.mk 1024) st0 "a/b" QoS.AtLeastOnce
    (List.replicate 1025 0) (by simp)

/-- C3 counterexample: the claim says every new Publish request carries
the packet-identifier VALUE ZERO, but `MqttClient::publish` sets
`pkid: None` (line 96): the concrete publish below enqueues a Publish
request whose pkid field is the `None` option, not
`Some(PacketIdentifier::zero())`. -/
theorem C3_pkid_zero_counterexample :
    ((MqttClient.mk 10).publish st0 "a" QoS.AtMostOnce []).state.request_ch.queue =
      [Request.Publish
        { dup := false, qos := QoS.AtMostOnce, retain := false, topic_name := "a",
          pkid := none, payload := [] }] ∧
    ¬ ((MqttClient.mk 10).publish st0 "a" QoS.AtMostOnce []).state.request_ch.queue =
      [Request.Publish
        { dup := false, qos := QoS.AtMostOnce, retain := false, topic_name := "a",
          pkid := some PacketIdentifier.zero, payload := [] }] := by
  constructor
  · simp [MqttClient.publish, st0, Channel.send]
  · simp [MqttClient.publish, st0, Channel.send]

/-- C3 amended: every Subscribe and Unsubscribe request emitted by the
handle carries packet-identifier zero as the unassigned sentinel, and
every new Publish request carries the unassigned `None` option (no
identifier value at all); the handle never assigns any other packet
identifier: every message found on the Request channel after any
operation either was already there or is pkid-unassigned. -/
theorem C3_pkid_unassigned (c : MqttClient) (st : ClientState) (op : Op)
    (msg : Request) (hmem : msg ∈ (runOp c st op).state.request_ch.queue) :
    msg ∈ st.request_ch.queue ∨ requestPkidUnassigned msg = true := by
  cases hreq : st.request_ch.closed <;> cases hcmd : st.command_ch.closed <;>
    cases op <;>
      simp only [runOp, MqttClient.publish, MqttClient.subscribe, MqttClient.unsubscribe,
        MqttClient.pause, MqttClient.resume, MqttClient.disconnect, Channel.send, hreq, hcmd,
        Bool.false_eq_true, if_false, if_true, ite_true, ite_false, reduceCtorEq,
        reduceIte] at hmem <;>
      (repeat split at hmem) <;>
      first
        | exact Or.inl hmem
        | (simp only [List.mem_append, List.mem_singleton] at hmem
           rcases hmem with h | h
           · exact Or.inl h
           · subst h
             exact Or.inr rfl)

/-- Witness for C3 amended: a concrete subscribe on a fresh state. -/
theorem C3_pkid_unassigned_witness :
    Request.Subscribe
        { pkid := PacketIdentifier.zero, topics := [{ topic_path := "t", qos := QoS.AtMostOnce }] } ∈
      (runOp (MqttClient.mk 5) st0 (Op.subscribe "t" QoS.AtMostOnce)).state.request_ch.queue ∧
    (Request.Subscribe
        { pkid := PacketIdentifier.zero, topics := [{ topic_path := "t", qos := QoS.AtMostOnce }] } ∈
        st0.request_ch.queue ∨
      requestPkidUnassigned
        (Request.Subscribe
          { pkid := PacketIdentifier.zero,
            topics := [{ topic_path := "t", qos := QoS.AtMostOnce }] }) = true) := by
  refine ⟨by simp [runOp, MqttClient.subscribe, st0, Channel.send], ?_⟩
  exact C3_pkid_unassigned (MqttClient.mk 5) st0 (Op.subscribe "t" QoS.AtMostOnce) _
    (by simp [runOp, MqttClient.subscribe, st0, Channel.send])

/-- C4: for every topic and qos, `subscribe` enqueues on the Request
channel one Subscribe Request whose topics list is exactly the one
(topic, qos) pair from the arguments and whose packet-id is the
unassigned sentinel zero. -/
theorem C4_subscribe_single_topic (c : MqttClient) (st : ClientState)
    (topic : String) (qos : QoS)
    (hopen : st.request_ch.closed = false) :
    (c.subscribe st topic qos).result = Except.ok () ∧
    (c.subscribe st topic qos).state.request_ch.queue =
      st.request_ch.queue ++
        [Request.Subscribe
          { pkid := PacketIdentifier.zero,
            topics := [{ topic_path := topic, qos := qos }] }] ∧
    (c.subscribe st topic qos).state.command_ch = st.command_ch := by
  simp [MqttClient.subscribe, Channel.send, hopen]

/-- Witness for C4 at a concrete topic and qos on a fresh state. -/
theorem C4_subscribe_single_topic_witness :
    st0.request_ch.closed = false ∧
    ((MqttClient.mk 7).subscribe st0 "a/b" QoS.ExactlyOnce).result = Except.ok () ∧
    ((MqttClient.mk 7).subscribe st0 "a/b" QoS.ExactlyOnce).state.request_ch.queue =
      st0.request_ch.queue ++
        [Request.Subscribe
          { pkid := PacketIdentifier.zero,
            topics := [{ topic_path := "a/b", qos := QoS.ExactlyOnce }] }] ∧
    ((MqttClient.mk 7).subscribe st0 "a/b" QoS.ExactlyOnce).state.command_ch = st0.command_ch := by
  exact ⟨rfl, C4_subscribe_single_topic (MqttClient.mk 7) st0 "a/b" QoS.ExactlyOnce rfl⟩

/-- C5: for every topic, `unsubscribe` enqueues on the Request channel
one Unsubscribe Request whose topics list is exactly the one given
topic string and whose packet-id is the unassigned sentinel zero. -/
theorem C5_unsubscribe_single_topic (c : MqttClient) (st : ClientState)
    (topic : String)
    (hopen : st.request_ch.closed = false) :
    (c.unsubscribe st topic).result = Except.ok () ∧
    (c.unsubscribe st topic).state.request_ch.queue =
      st.request_ch.queue ++
        [Request.Unsubscribe { pkid := PacketIdentifier.zero, topics := [topic] }] ∧
    (c.unsubscribe st topic).state.command_ch = st.command_ch := by
  simp [MqttClient.unsubscribe, Channel.send, hopen]

/-- Witness for C5 at a concrete topic on a fresh state. -/
theorem C5_unsubscribe_single_topic_witness :
    st0.request_ch.closed = false ∧
    ((MqttClient.mk 7).unsubscribe st0 "a/b").result = Except.ok () ∧
    ((MqttClient.mk 7).unsubscribe st0 "a/b").state.request_ch.queue =
      st0.request_ch.queue ++
        [Request.Unsubscribe { pkid := PacketIdentifier.zero, topics := ["a/b"] }] ∧
    ((MqttClient.mk 7).unsubscribe st0 "a/b").state.command_ch = st0.command_ch := by
  exact ⟨rfl, C5_unsubscribe_single_topic (MqttClient.mk 7) st0 "a/b" rfl⟩

/-- C6: `pause()` followed by `resume()` places exactly the two values
Pause then Resume on the Command channel, in that order, and leaves the
Request channel completely untouched, whatever Request backlog it
holds. -/
theorem C6_pause_resume (c : MqttClient) (st : ClientState)
    (hopen : st.command_ch.closed = false) :
    (c.pause st).result = Except.ok () ∧
    ((c.pause st).client.resume (c.pause st).state).result = Except.ok () ∧
    ((c.pause st).client.resume (c.pause st).state).state.command_ch.queue =
      st.command_ch.queue ++ [Command.Pause, Command.Resume] ∧
    ((c.pause st).client.resume (c.pause st).state).state.request_ch = st.request_ch := by
  simp [MqttClient.pause, MqttClient.resume, Channel.send, hopen]

/-- Witness for C6 on a state with a pending Request backlog. -/
theorem C6_pause_resume_witness :
    ({ request_ch := { queue := [Request.Ping, Request.Disconnect], closed := false },
       command_ch := { queue := [], closed := false } } : ClientState).command_ch.closed
      = false ∧
    (((MqttClient.mk 7).pause
        { request_ch := { queue := [Request.Ping, Request.Disconnect], closed := false },
          command_ch := { queue := [], closed := false } }).client.resume
      ((MqttClient.mk 7).pause
        { request_ch := { queue := [Request.Ping, Request.Disconnect], closed := false },
          command_ch := { queue := [], closed := false } }).state).state.command_ch.queue =
      [Command.Pause, Command.Resume] ∧
    (((MqttClient.mk 7).pause
        { request_ch := { queue := [Request.Ping, Request.Disconnect], closed := false },
          command_ch := { queue := [], closed := false } }).client.resume
      ((MqttClient.mk 7).pause
        { request_ch := { queue := [Request.Ping, Request.Disconnect], closed := false },
          command_ch := { queue := [], closed := false } }).state).state.request_ch =
      { queue := [Request.Ping, Request.Disconnect], closed := false } := by
  refine ⟨rfl, ?_, ?_⟩
  · exact (C6_pause_resume (MqttClient.mk 7)
      { request_ch := { queue := [Request.Ping, Request.Disconnect], closed := false },
        command_ch := { queue := [], closed := false } } rfl).2.2.1
  · exact (C6_pause_resume (MqttClient.mk 7)
      { request_ch := { queue := [Request.Ping, Request.Disconnect], closed := false },
        command_ch := { queue := [], closed := false } } rfl).2.2.2

/-- C7: for every sequence of operations issued on one handle clone
with both channels open (so every operation succeeds), the messages on
each single channel are the concatenation, in issue order, of what each
operation emits there: FIFO per channel, with no ordering relation
between the Request and the Command channel. -/
theorem C7_fifo_per_channel (c : MqttClient) (ops : List Op) (st : ClientState)
    (hreq : st.request_ch.closed = false) (hcmd : st.command_ch.closed = false) :
    (runOps c st ops).2.request_ch.queue =
      st.request_ch.queue ++ (ops.map (opRequests c)).flatten ∧
    (runOps c st ops).2.command_ch.queue =
      st.command_ch.queue ++ (ops.map opCommands).flatten := by
  induction ops generalizing st with
  | nil => simp [runOps]
  | cons op ops ih =>
      obtain ⟨h1, h2, h3, h4⟩ := runOp_queues c st op hreq hcmd
      have hstep : runOps c st (op :: ops) = runOps c (runOp c st op).state ops := by
        rw [runOps, runOp_client_eq]
      obtain ⟨ihr, ihc⟩ := ih (runOp c st op).state h3 h4
      rw [hstep] at *
      rw [ihr, ihc, h1, h2]
      simp [List.append_assoc]

/-- Witness for C7: publish, subscribe, pause, disconnect issued in
order on a fresh state. -/
theorem C7_fifo_per_channel_witness :
    st0.request_ch.closed = false ∧ st0.command_ch.closed = false ∧
    (runOps (MqttClient.mk 4) st0
        [Op.publish "t" QoS.AtMostOnce [1, 2], Op.subscribe "s" QoS.AtLeastOnce,
         Op.pause, Op.disconnect]).2.request_ch.queue =
      st0.request_ch.queue ++
        ([Op.publish "t" QoS.AtMostOnce [1, 2], Op.subscribe "s" QoS.AtLeastOnce,
          Op.pause, Op.disconnect].map (opRequests (MqttClient.mk 4))).flatten ∧
    (runOps (MqttClient.mk 4) st0
        [Op.publish "t" QoS.AtMostOnce [1, 2], Op.subscribe "s" QoS.AtLeastOnce,
         Op.pause, Op.disconnect]).2.command_ch.queue =
      st0.command_ch.queue ++
        ([Op.publish "t" QoS.AtMostOnce [1, 2], Op.subscribe "s" QoS.AtLeastOnce,
          Op.pause, Op.disconnect].map opCommands).flatten := by
  refine ⟨rfl, rfl, ?_, ?_⟩
  · exact (C7_fifo_per_channel (MqttClient.mk 4)
      [Op.publish "t" QoS.AtMostOnce [1, 2], Op.subscribe "s" QoS.AtLeastOnce,
       Op.pause, Op.disconnect] st0 rfl rfl).1
  · exact (C7_fifo_per_channel (MqttClient.mk 4)
      [Op.publish "t" QoS.AtMostOnce [1, 2], Op.subscribe "s" QoS.AtLeastOnce,
       Op.pause, Op.disconnect] st0 rfl rfl).2

/-- C8: every public operation returns an explicit result value, and
when the receiving side of the channel it sends on has been torn down
the result is the communication error, with the channel state left
unchanged, for publish (within the size limit), subscribe, unsubscribe,
pause, resume and disconnect alike. -/
theorem C8_closed_channel_error (c : MqttClient) (st : ClientState)
    (topic : String) (qos : QoS) (payload : List Nat)
    (hreq : st.request_ch.closed = true) (hcmd : st.command_ch.closed = true)
    (hsize : payload.length ≤ c.max_packet_size) :
    ((c.publish st topic qos payload).result = Except.error ClientError.Communication ∧
      (c.publish st topic qos payload).state = st) ∧
    ((c.subscribe st topic qos).result = Except.error ClientError.Communication ∧
      (c.subscribe st topic qos).state = st) ∧
    ((c.unsubscribe st topic).result = Except.error ClientError.Communication ∧
      (c.unsubscribe st topic).state = st) ∧
    ((c.pause st).result = Except.error ClientError.Communication ∧
      (c.pause st).state = st) ∧
    ((c.resume st).result = Except.error ClientError.Communication ∧
      (c.resume st).state = st) ∧
    ((c.disconnect st).result = Except.error ClientError.Communication ∧
      (c.disconnect st).state = st) := by
  simp [MqttClient.publish, MqttClient.subscribe, MqttClient.unsubscribe,
    MqttClient.pause, MqttClient.resume, MqttClient.disconnect, Channel.send,
    hreq, hcmd, Nat.not_lt.mpr hsize]

/-- Witness for C8: a torn-down state (both receivers gone) and an
in-limit publish. -/
theorem C8_closed_channel_error_witness :
    ({ request_ch := { queue := [], closed := true },
       command_ch := { queue := [], closed := true } } : ClientState).request_ch.closed
      = true ∧
    ([1] : List Nat).length ≤ (MqttClient.mk 5).max_packet_size ∧
    ((MqttClient.mk 5).publish
        { request_ch := { queue := [], closed := true },
          command_ch := { queue := [], closed := true } } "t" QoS.AtMostOnce [1]).result =
      Except.error ClientError.Communication ∧
    ((MqttClient.mk 5).disconnect
        { request_ch := { queue := [], closed := true },
          command_ch := { queue := [], closed := true } }).result =
      Except.error ClientError.Communication ∧
    ((MqttClient.mk 5).pause
        { request_ch := { queue := [], closed := true },
          command_ch := { queue := [], closed := true } }).result =
      Except.error ClientError.Communication := by
  have h := C8_closed_channel_error (MqttClient.mk 5)
    { request_ch := { queue := [], closed := true },
      command_ch := { queue := [], closed := true } } "t" QoS.AtMostOnce [1]
    rfl rfl (by simp)
  exact ⟨rfl, by simp, h.1.1, h.2.2.2.2.2.1, h.2.2.2.1.1⟩

/-- C9: `max_packet_size` is read once from the options at `start` and
no operation ever writes to the handle; an operation's only effect is
at most one enqueue on each channel tail (exactly one on its target
channel when the send succeeds, zero otherwise), and it never alters
the channels' closed flags or existing contents. -/
theorem C9_handle_immutable (opts : MqttOptions) (c : MqttClient)
    (st : ClientState) (op : Op) :
    (MqttClient.start opts).1.max_packet_size = opts.max_packet_size ∧
    (runOp c st op).client = c ∧
    (∃ l : List Request,
      (runOp c st op).state.request_ch.queue = st.request_ch.queue ++ l ∧
      l.length ≤ 1) ∧
    (∃ l : List Command,
      (runOp c st op).state.command_ch.queue = st.command_ch.queue ++ l ∧
      l.length ≤ 1) ∧
    (runOp c st op).state.request_ch.closed = st.request_ch.closed ∧
    (runOp c st op).state.command_ch.closed = st.command_ch.closed := by
  refine ⟨rfl, runOp_client_eq c st op, ?_, ?_, ?_, ?_⟩ <;>
    cases hreq : st.request_ch.closed <;> cases hcmd : st.command_ch.closed <;>
      cases op <;>
        simp only [runOp, MqttClient.publish, MqttClient.subscribe, MqttClient.unsubscribe,
          MqttClient.pause, MqttClient.resume, MqttClient.disconnect, Channel.send,
          hreq, hcmd, Bool.false_eq_true, if_false, if_true, ite_true, ite_false,
          reduceCtorEq, reduceIte] <;>
        (repeat split) <;>
        first
          | (refine ⟨_, rfl, ?_⟩; simp)
          | (refine ⟨[], ?_, ?_⟩ <;> simp)
          | rfl
          | assumption

/-- C10: `publish` forwards its topic and qos arguments unchanged into
the enqueued Publish Request, with no validation or normalization of
the topic: every topic string, the empty string included, is accepted
whenever the payload passes the size check. -/
theorem C10_publish_forwards_topic_qos (c : MqttClient) (st : ClientState)
    (topic : String) (qos : QoS) (payload : List Nat)
    (hsize : payload.length ≤ c.max_packet_size)
    (hopen : st.request_ch.closed = false) :
    (c.publish st topic qos payload).result = Except.ok () ∧
    ∃ p : Publish,
      (c.publish st topic qos payload).state.request_ch.queue =
        st.request_ch.queue ++ [Request.Publish p] ∧
      p.topic_name = topic ∧ p.qos = qos := by
  refine ⟨?_, ?_⟩
  · simp [MqttClient.publish, Channel.send, hopen, Nat.not_lt.mpr hsize]
  · refine ⟨⟨false, qos, false, topic, none, payload⟩, ?_, rfl, rfl⟩
    simp [MqttClient.publish, Channel.send, hopen, Nat.not_lt.mpr hsize]

/-- Witness for C10 at the empty topic string. -/
theorem C10_publish_forwards_topic_qos_witness :
    ([] : List Nat).length ≤ (MqttClient.mk 3).max_packet_size ∧
    st0.request_ch.closed = false ∧
    (((MqttClient.mk 3).publish st0 "" QoS.AtMostOnce []).result = Except.ok () ∧
      ∃ p : Publish,
        ((MqttClient.mk 3).publish st0 "" QoS.AtMostOnce []).state.request_ch.queue =
          st0.request_ch.queue ++ [Request.Publish p] ∧
        p.topic_name = "" ∧ p.qos = QoS.AtMostOnce) := by
  exact ⟨by simp, rfl,
    C10_publish_forwards_topic_qos (MqttClient.mk 3) st0 "" QoS.AtMostOnce []
      (by simp) rfl⟩

end Rumqtt
